import Mathlib

/-
Verification of the bulk-mail dispatch engine of
`Bulk-Email-Sender.py` (class `SendWorker`): a shallow embedding of
`SendWorker.run`, `SendWorker._build_message` and `SendWorker.stop`, with
the SMTP transport and the filesystem replaced by oracles, and theorems
about the event stream and the transport-operation trace of one run.
-/

namespace BulkEmail

/-- Oracle for reading attachment bytes from disk: `open(file, 'rb').read()`
either yields the bytes or raises with an error message. -/
abbrev ReadFn := String → Except String (List Nat)

/-- Transport settings, the `smtp_cfg` dict read at the top of
`SendWorker.run` (host, port, STARTTLS flag, implicit-SSL flag,
credentials). -/
structure SmtpCfg where
  smtp_host : String
  smtp_port : Nat
  use_tls : Bool
  use_ssl : Bool
  username : String
  password : String
deriving DecidableEq

/-- The message built by `SendWorker._build_message`: From/To/Subject
headers, the plain-text body part, and one (filename, base64 payload)
part per successfully read attachment, in attachment-list order. -/
structure Msg where
  fromAddr : String
  toAddr : String
  subject : String
  body : String
  attachments : List (String × String)
deriving DecidableEq

/-- One event of the worker's outgoing stream.  Each constructor is one
distinct emit site of `SendWorker`: `attachErr` is the
"Attachment error: ..." progress line in `_build_message`, `cancelled`
the "Sending cancelled by user." line, `sent`/`failed` the
"[i/N] Sent to ..."/"[i/N] Failed to ...: ..." per-recipient lines,
`fatal` the `error` signal, `finished` the `finished` signal. -/
inductive Ev where
  | attachErr (file err : String)
  | cancelled
  | sent (idx total : Nat) (rcpt : String)
  | failed (idx total : Nat) (rcpt : String) (reason : String)
  | fatal (msg : String)
  | finished
deriving DecidableEq

/-- One operation performed on the SMTP transport, in order:
`connectPlain` is `smtplib.SMTP(host, port)`, `connectSSL` is
`smtplib.SMTP_SSL(host, port, context=...)` (the socket is TLS-wrapped
as part of connecting), `ehlo`/`starttls`/`login` the respective server
calls, `send` one `server.sendmail(username, [rcpt], msg)` attempt, and
`close` the session teardown performed when the `with server:` block is
exited. -/
inductive Op where
  | connectPlain (host : String) (port : Nat)
  | connectSSL (host : String) (port : Nat)
  | ehlo
  | starttls
  | login (username password : String)
  | send (envFrom rcpt : String) (msg : Msg)
  | close
deriving DecidableEq

/-- Oracle for the transport's behaviour: each field is `none` when the
corresponding server call succeeds and `some e` when it raises an
exception rendered as `e`.  `ehlo1` is the greeting right after connect,
`ehlo2` the one re-issued after STARTTLS; `send i` decides the sendmail
attempt for the recipient at 1-based index `i`. -/
structure Transport where
  connect : Option String
  ehlo1 : Option String
  starttls : Option String
  ehlo2 : Option String
  login : Option String
  send : Nat → Option String

/-- The `os.path.basename` used for the Content-Disposition filename:
the characters after the last path separator. -/
def basename (p : String) : String :=
  String.mk (p.data.foldl (fun acc c => if c = '/' then [] else acc ++ [c]) [])

/-- One character of the standard base64 alphabet. -/
def b64Char (n : Nat) : Char :=
  if n < 26 then Char.ofNat (65 + n)
  else if n < 52 then Char.ofNat (97 + (n - 26))
  else if n < 62 then Char.ofNat (48 + (n - 52))
  else if n = 62 then '+'
  else '/'

/-- Base64 encoding of a byte list, the `encoders.encode_base64` applied
to each attachment payload. -/
def encodeBase64 : List Nat → String
  | [] => ""
  | [a] =>
    String.mk [b64Char (a % 256 / 4), b64Char (a % 256 % 4 * 16), '=', '=']
  | [a, b] =>
    String.mk [b64Char (a % 256 / 4), b64Char (a % 256 % 4 * 16 + b % 256 / 16),
      b64Char (b % 256 % 16 * 4), '=']
  | a :: b :: c :: rest =>
    String.mk [b64Char (a % 256 / 4), b64Char (a % 256 % 4 * 16 + b % 256 / 16),
      b64Char (b % 256 % 16 * 4 + c % 256 / 64), b64Char (c % 256 % 64)]
      ++ encodeBase64 rest

/-- The attachment loop of `SendWorker._build_message`: for each path in
order, try to read the file; on success attach a (basename, base64
payload) part, on failure emit one "Attachment error" progress line and
skip the file.  Returns (parts, progress events), each in path order. -/
def buildParts (read : ReadFn) : List String → List (String × String) × List Ev
  | [] => ([], [])
  | file :: rest =>
    match read file with
    | Except.ok bytes =>
      ((basename file, encodeBase64 bytes) :: (buildParts read rest).1,
       (buildParts read rest).2)
    | Except.error e =>
      ((buildParts read rest).1, Ev.attachErr file e :: (buildParts read rest).2)

/-- `SendWorker._build_message(sender, recipient)`: headers From/To/
Subject, plain-text body, then the attachment parts; total — it always
returns a message, alongside the attachment-error progress events it
emitted. -/
def buildMessage (sender rcpt subject body : String) (attachments : List String)
    (read : ReadFn) : Msg × List Ev :=
  ({ fromAddr := sender, toAddr := rcpt, subject := subject, body := body,
     attachments := (buildParts read attachments).1 },
   (buildParts read attachments).2)

/-- Whether an event is a per-recipient outcome line ("[i/N] Sent" or
"[i/N] Failed"). -/
def Ev.isOutcome : Ev → Bool
  | .sent _ _ _ => true
  | .failed _ _ _ _ => true
  | _ => false

/-- Whether a transport operation is a sendmail attempt. -/
def Op.isSend : Op → Bool
  | .send _ _ _ => true
  | _ => false

/-- The outcome event the loop emits for the enumerated recipient `p`
(1-based index paired with address), as decided by the transport
oracle. -/
def outcomeAt (t : Transport) (total : Nat) (p : Nat × String) : Ev :=
  match t.send p.1 with
  | none => Ev.sent p.1 total p.2
  | some e => Ev.failed p.1 total p.2 e

/-- The recipient loop of `SendWorker.run`: for each recipient, first
check the `_stop` flag (emit the cancellation line and break when set),
else build the message, attempt sendmail, and emit Sent or Failed —
a sendmail exception is caught per recipient and the loop continues.
Returns the emitted events and the transport operations, in order. -/
def sendLoop (sender subject body : String) (attachments : List String)
    (read : ReadFn) (t : Transport) (stop : Nat → Bool) (total : Nat) :
    Nat → List String → List Ev × List Op
  | _, [] => ([], [])
  | idx, rcpt :: rest =>
    if stop idx then
      ([Ev.cancelled], [])
    else
      match t.send idx with
      | none =>
        ((buildMessage sender rcpt subject body attachments read).2
            ++ Ev.sent idx total rcpt
            :: (sendLoop sender subject body attachments read t stop total
                (idx + 1) rest).1,
         Op.send sender rcpt (buildMessage sender rcpt subject body attachments read).1
            :: (sendLoop sender subject body attachments read t stop total
                (idx + 1) rest).2)
      | some e =>
        ((buildMessage sender rcpt subject body attachments read).2
            ++ Ev.failed idx total rcpt e
            :: (sendLoop sender subject body attachments read t stop total
                (idx + 1) rest).1,
         Op.send sender rcpt (buildMessage sender rcpt subject body attachments read).1
            :: (sendLoop sender subject body attachments read t stop total
                (idx + 1) rest).2)

/-- The tail of the `with server:` block after any STARTTLS upgrade:
`if username: server.login(...)` followed by the recipient loop.  `ops0`
is the trace of the operations already performed inside the block.
Returns (events, operations, raised exception if any). -/
def loginAndSend (cfg : SmtpCfg) (recipients : List String) (subject body : String)
    (attachments : List String) (read : ReadFn) (t : Transport)
    (stop : Nat → Bool) (ops0 : List Op) : List Ev × List Op × Option String :=
  if cfg.username = "" then
    ((sendLoop cfg.username subject body attachments read t stop
        recipients.length 1 recipients).1,
     ops0 ++ (sendLoop cfg.username subject body attachments read t stop
        recipients.length 1 recipients).2,
     none)
  else
    match t.login with
    | some e => ([], ops0 ++ [Op.login cfg.username cfg.password], some e)
    | none =>
      ((sendLoop cfg.username subject body attachments read t stop
          recipients.length 1 recipients).1,
       ops0 ++ Op.login cfg.username cfg.password
          :: (sendLoop cfg.username subject body attachments read t stop
              recipients.length 1 recipients).2,
       none)

/-- The body of the `with server:` block of `SendWorker.run`:
`server.ehlo()`, then `if use_tls and not use_ssl:` the STARTTLS upgrade
followed by a second `ehlo()`, then login and the recipient loop.  Any
exception raised by a server call is returned as `some e` (it propagates
out of the block). -/
def sessionBody (cfg : SmtpCfg) (recipients : List String) (subject body : String)
    (attachments : List String) (read : ReadFn) (t : Transport)
    (stop : Nat → Bool) : List Ev × List Op × Option String :=
  match t.ehlo1 with
  | some e => ([], [Op.ehlo], some e)
  | none =>
    if cfg.use_tls && !cfg.use_ssl then
      match t.starttls with
      | some e => ([], [Op.ehlo, Op.starttls], some e)
      | none =>
        match t.ehlo2 with
        | some e => ([], [Op.ehlo, Op.starttls, Op.ehlo], some e)
        | none =>
          loginAndSend cfg recipients subject body attachments read t stop
            [Op.ehlo, Op.starttls, Op.ehlo]
    else
      loginAndSend cfg recipients subject body attachments read t stop [Op.ehlo]

/-- `SendWorker.run`: validate that host, username and password are all
non-empty (else emit the fatal "settings incomplete" error and finish);
connect with `SMTP_SSL` when `use_ssl` else `SMTP` (a connect exception
skips the `with` block, so no close happens); inside `with server:` run
the session body — on leaving the block the session is closed, a
propagating exception is reported via the `error` signal as
"SMTP error: ...", and `finally:` always emits `finished`.  Returns the
event stream and the transport-operation trace. -/
def runWorker (cfg : SmtpCfg) (recipients : List String) (subject body : String)
    (attachments : List String) (read : ReadFn) (t : Transport)
    (stop : Nat → Bool) : List Ev × List Op :=
  if cfg.smtp_host = "" ∨ cfg.username = "" ∨ cfg.password = "" then
    ([Ev.fatal "SMTP settings incomplete. Please configure SMTP.", Ev.finished], [])
  else
    match t.connect with
    | some e =>
      ([Ev.fatal ("SMTP error: " ++ e), Ev.finished],
       [if cfg.use_ssl then Op.connectSSL cfg.smtp_host cfg.smtp_port
        else Op.connectPlain cfg.smtp_host cfg.smtp_port])
    | none =>
      match sessionBody cfg recipients subject body attachments read t stop with
      | (evs, ops, none) =>
        (evs ++ [Ev.finished],
         (if cfg.use_ssl then Op.connectSSL cfg.smtp_host cfg.smtp_port
          else Op.connectPlain cfg.smtp_host cfg.smtp_port) :: ops ++ [Op.close])
      | (evs, ops, some e) =>
        (evs ++ [Ev.fatal ("SMTP error: " ++ e), Ev.finished],
         (if cfg.use_ssl then Op.connectSSL cfg.smtp_host cfg.smtp_port
          else Op.connectPlain cfg.smtp_host cfg.smtp_port) :: ops ++ [Op.close])

/-- Whether an operation, if it is a sendmail attempt, uses `u` both as
the envelope sender and as the message's From header. -/
def sendByUser (u : String) : Op → Bool
  | .send envFrom _ m => envFrom == u && m.fromAddr == u
  | _ => true

/-- A transport stub on which every operation succeeds. -/
def transportOK : Transport :=
  { connect := none, ehlo1 := none, starttls := none, ehlo2 := none,
    login := none, send := fun _ => none }

/-- A transport stub that fails the first sendmail attempt and succeeds
on every other operation. -/
def transportFail1 : Transport :=
  { transportOK with send := fun i => if i = 1 then some "boom" else none }

/-- Complete sample settings in STARTTLS mode. -/
def cfgSampleTLS : SmtpCfg :=
  { smtp_host := "smtp.example.com", smtp_port := 587, use_tls := true,
    use_ssl := false, username := "user@example.com", password := "pw" }

/-- Complete sample settings with both encryption flags set. -/
def cfgSampleSSL : SmtpCfg :=
  { cfgSampleTLS with use_ssl := true }

/-- Sample settings whose password is empty. -/
def cfgSampleNoPw : SmtpCfg :=
  { cfgSampleTLS with password := "" }

/-- A reader for which no file exists. -/
def readNone : ReadFn := fun _ => Except.error "No such file"

/-- A reader with exactly one readable file. -/
def readOne : ReadFn := fun f =>
  if f = "docs/a.txt" then Except.ok [77, 97, 110]
  else Except.error "No such file"

/-- The stop flag never set. -/
def noStop : Nat → Bool := fun _ => false

/-- The parts of the built message are exactly the readable attachments,
in order, each base64-encoded and named by its basename. -/
lemma buildParts_fst_eq (read : ReadFn) (files : List String) :
    (buildParts read files).1 = files.filterMap (fun f =>
      match read f with
      | Except.ok bs => some (basename f, encodeBase64 bs)
      | Except.error _ => none) := by
  induction files with
  | nil => rfl
  | cons f fs ih =>
    cases h : read f <;> simp [buildParts, h, ih]

/-- The progress events of the builder are exactly one attachment-error
line per unreadable attachment, in order. -/
lemma buildParts_snd_eq (read : ReadFn) (files : List String) :
    (buildParts read files).2 = files.filterMap (fun f =>
      match read f with
      | Except.ok _ => none
      | Except.error e => some (Ev.attachErr f e)) := by
  induction files with
  | nil => rfl
  | cons f fs ih =>
    cases h : read f <;> simp [buildParts, h, ih]

/-- The builder emits no per-recipient outcome events. -/
lemma buildParts_filter_outcome (read : ReadFn) (files : List String) :
    (buildParts read files).2.filter Ev.isOutcome = [] := by
  induction files with
  | nil => rfl
  | cons f fs ih =>
    cases h : read f <;> simp [buildParts, h, ih, Ev.isOutcome]

/-- Every transport operation performed by the recipient loop is a
sendmail attempt whose envelope sender, and whose message From header,
are the `sender` argument. -/
lemma sendLoop_ops_mem (sender subject body : String) (attachments : List String)
    (read : ReadFn) (t : Transport) (stop : Nat → Bool) (total : Nat) :
    ∀ (rest : List String) (idx : Nat),
      ∀ op ∈ (sendLoop sender subject body attachments read t stop total idx rest).2,
        ∃ r m, op = Op.send sender r m ∧ m.fromAddr = sender := by
  intro rest
  induction rest with
  | nil => intro idx op hop; simp [sendLoop] at hop
  | cons r rs ih =>
    intro idx op hop
    by_cases h : stop idx
    · simp [sendLoop, h] at hop
    · cases hs : t.send idx <;> simp [sendLoop, h, hs] at hop <;>
      · rcases hop with rfl | hop
        · exact ⟨r, _, rfl, rfl⟩
        · exact ih _ op hop

/-- With the stop flag never set, the outcome events of the recipient
loop are exactly one outcome per remaining recipient, in order, indexed
from `idx`, each decided by the transport oracle. -/
lemma sendLoop_filter_no_stop (sender subject body : String)
    (attachments : List String) (read : ReadFn) (t : Transport)
    (stop : Nat → Bool) (total : Nat) (hstop : ∀ i, stop i = false) :
    ∀ (rest : List String) (idx : Nat),
      (sendLoop sender subject body attachments read t stop total idx rest).1.filter
          Ev.isOutcome
        = (List.enumFrom idx rest).map (outcomeAt t total) := by
  intro rest
  induction rest with
  | nil => intro idx; rfl
  | cons r rs ih =>
    intro idx
    cases hs : t.send idx <;>
      simp [sendLoop, hstop idx, hs, buildMessage, List.filter_append,
        buildParts_filter_outcome, Ev.isOutcome, outcomeAt, ih, List.enumFrom]

/-- With the stop flag observed set from iteration `k` on, and at least
one recipient left when iteration `k` is reached, the loop emits
outcomes exactly for the first `k - idx` remaining recipients, ends its
event stream with the cancellation line, and performs exactly `k - idx`
sendmail attempts. -/
lemma sendLoop_cancel_parts (sender subject body : String)
    (attachments : List String) (read : ReadFn) (t : Transport)
    (stop : Nat → Bool) (total k : Nat)
    (hstop : ∀ i, stop i = decide (k ≤ i)) :
    ∀ (rest : List String) (idx : Nat), idx ≤ k → k - idx < rest.length →
      ((sendLoop sender subject body attachments read t stop total idx rest).1.filter
          Ev.isOutcome
        = (List.enumFrom idx (rest.take (k - idx))).map (outcomeAt t total))
      ∧ (∃ q, (sendLoop sender subject body attachments read t stop total idx rest).1
          = q ++ [Ev.cancelled])
      ∧ ((sendLoop sender subject body attachments read t stop total idx rest).2.length
          = k - idx) := by
  intro rest
  induction rest with
  | nil => intro idx h1 h2; simp at h2
  | cons r rs ih =>
    intro idx hle hlen
    by_cases hik : k ≤ idx
    · have hk : k - idx = 0 := by omega
      refine ⟨?_, ⟨[], ?_⟩, ?_⟩ <;>
        simp [sendLoop, hstop idx, hik, hk, Ev.isOutcome]
    · have hlt : idx < k := by omega
      have hm : k - idx = (k - (idx + 1)) + 1 := by omega
      have hstop2 : stop idx = false := by simp [hstop idx, hik]
      obtain ⟨ih1, ⟨q, ihq⟩, ih3⟩ := ih (idx + 1) (by omega)
        (by simp at hlen; omega)
      cases hs : t.send idx with
      | none =>
        refine ⟨?_, ⟨?_, ?_⟩, ?_⟩
        · simp [sendLoop, hstop2, hs, hm, buildMessage, List.filter_append,
            buildParts_filter_outcome, Ev.isOutcome, outcomeAt, ih1,
            List.enumFrom]
        · exact (buildMessage sender r subject body attachments read).2
            ++ Ev.sent idx total r :: q
        · simp [sendLoop, hstop2, hs, ihq]
        · simp [sendLoop, hstop2, hs, ih3]; omega
      | some e =>
        refine ⟨?_, ⟨?_, ?_⟩, ?_⟩
        · simp [sendLoop, hstop2, hs, hm, buildMessage, List.filter_append,
            buildParts_filter_outcome, Ev.isOutcome, outcomeAt, ih1,
            List.enumFrom]
        · exact (buildMessage sender r subject body attachments read).2
            ++ Ev.failed idx total r e :: q
        · simp [sendLoop, hstop2, hs, ihq]
        · simp [sendLoop, hstop2, hs, ih3]; omega

/-- Every transport operation of `loginAndSend` is either one of the
operations already performed, the login exchange, or a sendmail attempt
from the configured username. -/
lemma loginAndSend_ops_mem (cfg : SmtpCfg) (recipients : List String)
    (subject body : String) (attachments : List String) (read : ReadFn)
    (t : Transport) (stop : Nat → Bool) (ops0 : List Op) :
    ∀ op ∈ (loginAndSend cfg recipients subject body attachments read t stop
        ops0).2.1,
      op ∈ ops0 ∨ op = Op.login cfg.username cfg.password
        ∨ ∃ r m, op = Op.send cfg.username r m ∧ m.fromAddr = cfg.username := by
  intro op hop
  by_cases hu : cfg.username = ""
  · simp [loginAndSend, hu] at hop
    rcases hop with hop | hop
    · exact Or.inl hop
    · rw [hu]
      exact Or.inr (Or.inr (sendLoop_ops_mem _ _ _ _ _ _ _ _ _ _ op hop))
  · cases hl : t.login with
    | some e =>
      simp [loginAndSend, hu, hl] at hop
      rcases hop with hop | rfl
      · exact Or.inl hop
      · exact Or.inr (Or.inl rfl)
    | none =>
      simp [loginAndSend, hu, hl] at hop
      rcases hop with hop | rfl | hop
      · exact Or.inl hop
      · exact Or.inr (Or.inl rfl)
      · exact Or.inr (Or.inr (sendLoop_ops_mem _ _ _ _ _ _ _ _ _ _ op hop))

/-- Every transport operation of the `with server:` block body is a
greeting, the STARTTLS upgrade, the login exchange, or a sendmail
attempt from the configured username; in particular it is never a
connect or a close. -/
lemma sessionBody_ops_mem (cfg : SmtpCfg) (recipients : List String)
    (subject body : String) (attachments : List String) (read : ReadFn)
    (t : Transport) (stop : Nat → Bool) :
    ∀ op ∈ (sessionBody cfg recipients subject body attachments read t stop).2.1,
      op = Op.ehlo ∨ op = Op.starttls ∨ op = Op.login cfg.username cfg.password
        ∨ ∃ r m, op = Op.send cfg.username r m ∧ m.fromAddr = cfg.username := by
  intro op hop
  have hbase : ∀ (ops0 : List Op),
      (∀ o ∈ ops0, o = Op.ehlo ∨ o = Op.starttls) →
      op ∈ (loginAndSend cfg recipients subject body attachments read t stop
        ops0).2.1 →
      op = Op.ehlo ∨ op = Op.starttls ∨ op = Op.login cfg.username cfg.password
        ∨ ∃ r m, op = Op.send cfg.username r m ∧ m.fromAddr = cfg.username := by
    intro ops0 h0 hmem
    rcases loginAndSend_ops_mem cfg recipients subject body attachments read t
        stop ops0 op hmem with hop0 | hop0 | hop0
    · rcases h0 op hop0 with h | h
      · exact Or.inl h
      · exact Or.inr (Or.inl h)
    · exact Or.inr (Or.inr (Or.inl hop0))
    · exact Or.inr (Or.inr (Or.inr hop0))
  cases he1 : t.ehlo1 with
  | some e =>
    simp [sessionBody, he1] at hop
    exact Or.inl hop
  | none =>
    by_cases hf : cfg.use_tls && !cfg.use_ssl
    · cases hst : t.starttls with
      | some e =>
        simp [sessionBody, he1, hf, hst] at hop
        rcases hop with rfl | rfl
        · exact Or.inl rfl
        · exact Or.inr (Or.inl rfl)
      | none =>
        cases he2 : t.ehlo2 with
        | some e =>
          simp [sessionBody, he1, hf, hst, he2] at hop
          rcases hop with rfl | rfl | rfl
          · exact Or.inl rfl
          · exact Or.inr (Or.inl rfl)
          · exact Or.inl rfl
        | none =>
          simp only [sessionBody, he1, hf, hst, he2, if_pos] at hop
          exact hbase [Op.ehlo, Op.starttls, Op.ehlo]
            (by intro o ho; simp at ho; tauto) hop
    · simp only [sessionBody, he1] at hop
      rw [if_neg hf] at hop
      exact hbase [Op.ehlo] (by intro o ho; simp at ho; tauto) hop

set_option maxRecDepth 4096 in
/-- The last event of every run is `finished` (the `finally:` block). -/
lemma runWorker_last (cfg : SmtpCfg) (recipients : List String)
    (subject body : String) (attachments : List String) (read : ReadFn)
    (t : Transport) (stop : Nat → Bool) :
    (runWorker cfg recipients subject body attachments read t stop).1.getLast?
      = some Ev.finished := by
  by_cases h : cfg.smtp_host = "" ∨ cfg.username = "" ∨ cfg.password = ""
  · simp [runWorker, h]
  · cases hc : t.connect with
    | some e => simp [runWorker, h, hc]
    | none =>
      rcases hs : sessionBody cfg recipients subject body attachments read t
          stop with ⟨evs, ops, exc⟩
      cases exc with
      | none =>
        unfold runWorker
        rw [if_neg h, hc, hs]
        simp
      | some e =>
        unfold runWorker
        rw [if_neg h, hc, hs]
        simp

/-- With complete settings, a transport whose connect, greetings,
STARTTLS and login all succeed, the run's event stream is the loop's
events followed by `finished`. -/
lemma runWorker_events_success (cfg : SmtpCfg) (recipients : List String)
    (subject body : String) (attachments : List String) (read : ReadFn)
    (t : Transport) (stop : Nat → Bool)
    (hh : ¬cfg.smtp_host = "") (hu : ¬cfg.username = "")
    (hp : ¬cfg.password = "") (hc : t.connect = none) (he1 : t.ehlo1 = none)
    (hst : t.starttls = none) (he2 : t.ehlo2 = none) (hl : t.login = none) :
    (runWorker cfg recipients subject body attachments read t stop).1
      = (sendLoop cfg.username subject body attachments read t stop
          recipients.length 1 recipients).1 ++ [Ev.finished] := by
  have h : ¬(cfg.smtp_host = "" ∨ cfg.username = "" ∨ cfg.password = "") := by
    tauto
  by_cases hf : cfg.use_tls && !cfg.use_ssl <;>
    simp [runWorker, sessionBody, loginAndSend, h, hh, hp, hc, he1, hst, he2,
      hl, hu, hf]

/-- Under the same success hypotheses, the sendmail attempts of the run
are exactly those of the loop. -/
lemma runWorker_sendops_success (cfg : SmtpCfg) (recipients : List String)
    (subject body : String) (attachments : List String) (read : ReadFn)
    (t : Transport) (stop : Nat → Bool)
    (hh : ¬cfg.smtp_host = "") (hu : ¬cfg.username = "")
    (hp : ¬cfg.password = "") (hc : t.connect = none) (he1 : t.ehlo1 = none)
    (hst : t.starttls = none) (he2 : t.ehlo2 = none) (hl : t.login = none) :
    ((runWorker cfg recipients subject body attachments read t stop).2).filter
        Op.isSend
      = (sendLoop cfg.username subject body attachments read t stop
          recipients.length 1 recipients).2 := by
  have h : ¬(cfg.smtp_host = "" ∨ cfg.username = "" ∨ cfg.password = "") := by
    tauto
  have hloop : (sendLoop cfg.username subject body attachments read t stop
      recipients.length 1 recipients).2.filter Op.isSend
      = (sendLoop cfg.username subject body attachments read t stop
          recipients.length 1 recipients).2 := by
    rw [List.filter_eq_self]
    intro op hop
    obtain ⟨r, m, rfl, _⟩ := sendLoop_ops_mem _ _ _ _ _ _ _ _ _ _ op hop
    rfl
  by_cases hssl : cfg.use_ssl <;>
    by_cases hf : cfg.use_tls && !cfg.use_ssl <;>
    simp_all [runWorker, sessionBody, loginAndSend, Op.isSend]

/-- C1: with the session established and no cancellation, the run emits
one per-recipient outcome for every recipient in input order, each
decided independently by that recipient's send result — a failure
sending to one recipient yields its Failed line and the loop continues,
so every later recipient still gets its outcome and the run still
reaches `finished`. -/
theorem send_failure_does_not_abort (cfg : SmtpCfg) (recipients : List String)
    (subject body : String) (attachments : List String) (read : ReadFn)
    (t : Transport) (stop : Nat → Bool)
    (hh : ¬cfg.smtp_host = "") (hu : ¬cfg.username = "")
    (hp : ¬cfg.password = "") (hc : t.connect = none) (he1 : t.ehlo1 = none)
    (hst : t.starttls = none) (he2 : t.ehlo2 = none) (hl : t.login = none)
    (hstop : ∀ i, stop i = false) :
    (runWorker cfg recipients subject body attachments read t stop).1.filter
        Ev.isOutcome
      = (List.enumFrom 1 recipients).map (outcomeAt t recipients.length)
    ∧ (runWorker cfg recipients subject body attachments read t
        stop).1.getLast? = some Ev.finished := by
  constructor
  · rw [runWorker_events_success cfg recipients subject body attachments read
      t stop hh hu hp hc he1 hst he2 hl, List.filter_append,
      sendLoop_filter_no_stop cfg.username subject body attachments read t
        stop recipients.length hstop recipients 1]
    simp [Ev.isOutcome]
  · exact runWorker_last cfg recipients subject body attachments read t stop

/-- C1 witness: recipients [A, B] where sending to A fails and to B
succeeds yield outcomes [Failed(A), Sent(B)] and the run finishes. -/
theorem send_failure_does_not_abort_witness :
    (runWorker cfgSampleTLS ["alice@x.com", "bob@x.com"] "s" "b" [] readNone
        transportFail1 noStop).1.filter Ev.isOutcome
      = [Ev.failed 1 2 "alice@x.com" "boom", Ev.sent 2 2 "bob@x.com"]
    ∧ (runWorker cfgSampleTLS ["alice@x.com", "bob@x.com"] "s" "b" []
        readNone transportFail1 noStop).1.getLast? = some Ev.finished := by
  have h := send_failure_does_not_abort cfgSampleTLS
    ["alice@x.com", "bob@x.com"] "s" "b" [] readNone transportFail1 noStop
    (by decide) (by decide) (by decide) rfl rfl rfl rfl rfl (fun _ => rfl)
  simpa [outcomeAt, transportFail1, transportOK, List.enumFrom] using h

/-- C2: with host, username or password empty, the run emits exactly the
fatal "settings incomplete" error followed by `finished`, attempts no
transport operation whatsoever (in particular no connection), and emits
zero per-recipient outcomes, whatever the recipient list. -/
theorem incomplete_settings_no_connection (cfg : SmtpCfg)
    (recipients : List String) (subject body : String)
    (attachments : List String) (read : ReadFn) (t : Transport)
    (stop : Nat → Bool)
    (h : cfg.smtp_host = "" ∨ cfg.username = "" ∨ cfg.password = "") :
    runWorker cfg recipients subject body attachments read t stop
      = ([Ev.fatal "SMTP settings incomplete. Please configure SMTP.",
          Ev.finished], []) := by
  unfold runWorker
  rw [if_pos h]

/-- C2 witness: an empty password makes the run emit only the fatal
error and finished, with an empty operation trace. -/
theorem incomplete_settings_no_connection_witness :
    runWorker cfgSampleNoPw ["alice@x.com"] "s" "b" [] readNone transportOK
        noStop
      = ([Ev.fatal "SMTP settings incomplete. Please configure SMTP.",
          Ev.finished], []) :=
  incomplete_settings_no_connection cfgSampleNoPw ["alice@x.com"] "s" "b" []
    readNone transportOK noStop (Or.inr (Or.inr rfl))

/-- C3: with complete settings, a fully working transport and no
cancellation, a run over N recipients emits exactly N Sent outcomes, in
input order with indices 1..N, and its event stream ends with
`finished`. -/
theorem all_success_sends_in_order (cfg : SmtpCfg) (recipients : List String)
    (subject body : String) (attachments : List String) (read : ReadFn)
    (t : Transport) (stop : Nat → Bool)
    (hh : ¬cfg.smtp_host = "") (hu : ¬cfg.username = "")
    (hp : ¬cfg.password = "") (hc : t.connect = none) (he1 : t.ehlo1 = none)
    (hst : t.starttls = none) (he2 : t.ehlo2 = none) (hl : t.login = none)
    (hstop : ∀ i, stop i = false) (hsend : ∀ i, t.send i = none) :
    (runWorker cfg recipients subject body attachments read t stop).1.filter
        Ev.isOutcome
      = (List.enumFrom 1 recipients).map
          (fun p => Ev.sent p.1 recipients.length p.2)
    ∧ (runWorker cfg recipients subject body attachments read t
        stop).1.getLast? = some Ev.finished := by
  have hfun : outcomeAt t recipients.length
      = fun p => Ev.sent p.1 recipients.length p.2 := by
    funext p
    simp [outcomeAt, hsend p.1]
  constructor
  · rw [runWorker_events_success cfg recipients subject body attachments read
      t stop hh hu hp hc he1 hst he2 hl, List.filter_append,
      sendLoop_filter_no_stop cfg.username subject body attachments read t
        stop recipients.length hstop recipients 1, hfun]
    simp [Ev.isOutcome]
  · exact runWorker_last cfg recipients subject body attachments read t stop

/-- C3 witness: two recipients with an always-succeeding transport stub
yield Sent(1/2, a), Sent(2/2, b) and then finished. -/
theorem all_success_sends_in_order_witness :
    (runWorker cfgSampleTLS ["a@x.com", "b@x.com"] "s" "b" [] readNone
        transportOK noStop).1.filter Ev.isOutcome
      = [Ev.sent 1 2 "a@x.com", Ev.sent 2 2 "b@x.com"]
    ∧ (runWorker cfgSampleTLS ["a@x.com", "b@x.com"] "s" "b" [] readNone
        transportOK noStop).1.getLast? = some Ev.finished := by
  have h := all_success_sends_in_order cfgSampleTLS ["a@x.com", "b@x.com"]
    "s" "b" [] readNone transportOK noStop (by decide) (by decide) (by decide)
    rfl rfl rfl rfl rfl (fun _ => rfl) (fun _ => rfl)
  simpa [List.enumFrom] using h

/-- C4: if the stop flag is observed set from iteration k on (k within
1..N), the first k-1 recipients each have their outcome, no further
recipient is attempted (exactly k-1 sendmail operations occur, so
recipients k..N are neither built nor attempted nor marked Failed), and
the cancellation progress line is emitted immediately before
`finished`. -/
theorem cancel_skips_remaining (cfg : SmtpCfg) (recipients : List String)
    (subject body : String) (attachments : List String) (read : ReadFn)
    (t : Transport) (stop : Nat → Bool) (k : Nat)
    (hh : ¬cfg.smtp_host = "") (hu : ¬cfg.username = "")
    (hp : ¬cfg.password = "") (hc : t.connect = none) (he1 : t.ehlo1 = none)
    (hst : t.starttls = none) (he2 : t.ehlo2 = none) (hl : t.login = none)
    (hk1 : 1 ≤ k) (hkN : k ≤ recipients.length)
    (hstop : ∀ i, stop i = decide (k ≤ i)) :
    (runWorker cfg recipients subject body attachments read t stop).1.filter
        Ev.isOutcome
      = (List.enumFrom 1 (recipients.take (k - 1))).map
          (outcomeAt t recipients.length)
    ∧ (∃ q, (runWorker cfg recipients subject body attachments read t stop).1
        = q ++ [Ev.cancelled, Ev.finished])
    ∧ (((runWorker cfg recipients subject body attachments read t
          stop).2).filter Op.isSend).length = k - 1 := by
  obtain ⟨h1, ⟨q, hq⟩, h3⟩ := sendLoop_cancel_parts cfg.username subject body
    attachments read t stop recipients.length k hstop recipients 1 hk1
    (by omega)
  refine ⟨?_, ⟨q, ?_⟩, ?_⟩
  · rw [runWorker_events_success cfg recipients subject body attachments read
      t stop hh hu hp hc he1 hst he2 hl, List.filter_append, h1]
    simp [Ev.isOutcome]
  · rw [runWorker_events_success cfg recipients subject body attachments read
      t stop hh hu hp hc he1 hst he2 hl, hq]
    simp
  · rw [runWorker_sendops_success cfg recipients subject body attachments
      read t stop hh hu hp hc he1 hst he2 hl]
    exact h3

/-- C4 witness: three recipients with the flag set before iteration 2
give exactly the outcome of recipient 1, one sendmail attempt, and the
cancellation line right before finished. -/
theorem cancel_skips_remaining_witness :
    (runWorker cfgSampleTLS ["a@x.com", "b@x.com", "c@x.com"] "s" "b" []
        readNone transportOK (fun i => decide (2 ≤ i))).1.filter Ev.isOutcome
      = [Ev.sent 1 3 "a@x.com"]
    ∧ (∃ q, (runWorker cfgSampleTLS ["a@x.com", "b@x.com", "c@x.com"] "s" "b"
        [] readNone transportOK (fun i => decide (2 ≤ i))).1
        = q ++ [Ev.cancelled, Ev.finished])
    ∧ (((runWorker cfgSampleTLS ["a@x.com", "b@x.com", "c@x.com"] "s" "b" []
        readNone transportOK (fun i => decide (2 ≤ i))).2).filter
          Op.isSend).length = 1 := by
  have h := cancel_skips_remaining cfgSampleTLS
    ["a@x.com", "b@x.com", "c@x.com"] "s" "b" [] readNone transportOK
    (fun i => decide (2 ≤ i)) 2 (by decide) (by decide) (by decide) rfl rfl
    rfl rfl rfl (by omega) (by simp) (fun _ => rfl)
  simpa [outcomeAt, transportOK, List.enumFrom] using h

/-- C5: the run closes the transport session exactly once when the
settings were complete and the connection was opened — on success,
partial failure, cancellation and fatal-error paths alike — and never
closes it when validation failed or the connection attempt itself
raised. -/
theorem session_closed_exactly_once (cfg : SmtpCfg) (recipients : List String)
    (subject body : String) (attachments : List String) (read : ReadFn)
    (t : Transport) (stop : Nat → Bool) :
    ((runWorker cfg recipients subject body attachments read t stop).2).count
        Op.close
      = if (¬cfg.smtp_host = "" ∧ ¬cfg.username = "" ∧ ¬cfg.password = "")
          ∧ t.connect = none then 1 else 0 := by
  by_cases h : cfg.smtp_host = "" ∨ cfg.username = "" ∨ cfg.password = ""
  · have hrhs : (if (¬cfg.smtp_host = "" ∧ ¬cfg.username = ""
        ∧ ¬cfg.password = "") ∧ t.connect = none then 1 else 0) = 0 := by
      rw [if_neg]
      tauto
    rw [hrhs]
    unfold runWorker
    rw [if_pos h]
    rfl
  · cases hc : t.connect with
    | some e =>
      rw [if_neg (by simp)]
      unfold runWorker
      rw [if_neg h, hc]
      cases hssl : cfg.use_ssl <;> simp [List.count_cons]
    | none =>
      have hnot : Op.close ∉ (sessionBody cfg recipients subject body
          attachments read t stop).2.1 := by
        intro hmem
        rcases sessionBody_ops_mem cfg recipients subject body attachments
          read t stop Op.close hmem with hx | hx | hx | ⟨r, m, hx, _⟩ <;>
          simp at hx
      rw [if_pos ⟨by tauto, rfl⟩]
      rcases hs : sessionBody cfg recipients subject body attachments read t
          stop with ⟨evs, ops, exc⟩
      rw [hs] at hnot
      simp only at hnot
      unfold runWorker
      rw [if_neg h, hc, hs]
      cases exc <;> cases hssl : cfg.use_ssl <;>
        simp [List.count_cons, List.count_append,
          List.count_eq_zero_of_not_mem hnot]

/-- C6: every run terminates and its last emitted event is `finished`,
on all paths: incomplete settings, connect/login failure, per-recipient
failures, cancellation, and full success. -/
theorem run_ends_with_finished (cfg : SmtpCfg) (recipients : List String)
    (subject body : String) (attachments : List String) (read : ReadFn)
    (t : Transport) (stop : Nat → Bool) :
    (runWorker cfg recipients subject body attachments read t
        stop).1.getLast? = some Ev.finished :=
  runWorker_last cfg recipients subject body attachments read t stop

/-- With `use_ssl` set, the session-body trace never contains the
STARTTLS upgrade: the `use_tls and not use_ssl` guard is false. -/
lemma sessionBody_no_starttls (cfg : SmtpCfg) (recipients : List String)
    (subject body : String) (attachments : List String) (read : ReadFn)
    (t : Transport) (stop : Nat → Bool) (hssl : cfg.use_ssl = true) :
    Op.starttls ∉ (sessionBody cfg recipients subject body attachments read t
        stop).2.1 := by
  intro hmem
  have hf : (cfg.use_tls && !cfg.use_ssl) = false := by simp [hssl]
  cases he1 : t.ehlo1 with
  | some e => simp [sessionBody, he1] at hmem
  | none =>
    rw [sessionBody, he1] at hmem
    simp only [hf] at hmem
    rcases loginAndSend_ops_mem cfg recipients subject body attachments read
      t stop [Op.ehlo] Op.starttls hmem with hx | hx | ⟨r, m, hx, _⟩ <;>
      simp at hx

/-- Under the success hypotheses, the run's operation trace is the
connect (SSL-wrapped iff `use_ssl`), the greeting — with the STARTTLS
upgrade and a second greeting exactly when `use_tls` and not `use_ssl` —
the login, the loop's sendmail attempts, and the final close. -/
lemma runWorker_ops_success (cfg : SmtpCfg) (recipients : List String)
    (subject body : String) (attachments : List String) (read : ReadFn)
    (t : Transport) (stop : Nat → Bool)
    (hh : ¬cfg.smtp_host = "") (hu : ¬cfg.username = "")
    (hp : ¬cfg.password = "") (hc : t.connect = none) (he1 : t.ehlo1 = none)
    (hst : t.starttls = none) (he2 : t.ehlo2 = none) (hl : t.login = none) :
    (runWorker cfg recipients subject body attachments read t stop).2
      = (if cfg.use_ssl then Op.connectSSL cfg.smtp_host cfg.smtp_port
         else Op.connectPlain cfg.smtp_host cfg.smtp_port)
        :: (if cfg.use_tls && !cfg.use_ssl then
              [Op.ehlo, Op.starttls, Op.ehlo] else [Op.ehlo])
        ++ Op.login cfg.username cfg.password
        :: (sendLoop cfg.username subject body attachments read t stop
            recipients.length 1 recipients).2
        ++ [Op.close] := by
  have h : ¬(cfg.smtp_host = "" ∨ cfg.username = "" ∨ cfg.password = "") := by
    tauto
  by_cases hf : cfg.use_tls && !cfg.use_ssl <;>
    simp [runWorker, sessionBody, loginAndSend, h, hh, hu, hp, hc, he1, hst,
      he2, hl, hf]

/-- C7: an attachment whose read fails is omitted from the built message
while every readable attachment is kept in order; the builder emits
exactly one attachment-error progress line per unreadable path, naming
the file and the error; and the message is still produced and handed to
the transport's sendmail for that recipient — never a fatal error. -/
theorem attachment_failure_isolated (sender rcpt subject body : String)
    (attachments : List String) (read : ReadFn) (t : Transport)
    (stop : Nat → Bool) (total idx : Nat) (rest : List String)
    (hstop : stop idx = false) :
    ((buildMessage sender rcpt subject body attachments read).1.attachments
      = attachments.filterMap (fun f =>
          match read f with
          | Except.ok bs => some (basename f, encodeBase64 bs)
          | Except.error _ => none))
    ∧ ((buildMessage sender rcpt subject body attachments read).2
      = attachments.filterMap (fun f =>
          match read f with
          | Except.ok _ => none
          | Except.error e => some (Ev.attachErr f e)))
    ∧ (∃ tl, (sendLoop sender subject body attachments read t stop total idx
          (rcpt :: rest)).2
        = Op.send sender rcpt
            (buildMessage sender rcpt subject body attachments read).1
          :: tl) := by
  refine ⟨buildParts_fst_eq read attachments,
    buildParts_snd_eq read attachments, ?_⟩
  cases hs : t.send idx with
  | none =>
    exact ⟨(sendLoop sender subject body attachments read t stop total
      (idx + 1) rest).2, by simp [sendLoop, hstop, hs]⟩
  | some e =>
    exact ⟨(sendLoop sender subject body attachments read t stop total
      (idx + 1) rest).2, by simp [sendLoop, hstop, hs]⟩

/-- C7 witness: of two attachment paths where only the first is
readable, the built message carries exactly the first (base64-encoded,
named by basename), exactly one error line names the second, and the
loop still hands that message to sendmail. -/
theorem attachment_failure_isolated_witness :
    ((buildMessage "u@x.com" "r@x.com" "s" "b" ["docs/a.txt", "missing.txt"]
        readOne).1.attachments = [("a.txt", "TWFu")])
    ∧ ((buildMessage "u@x.com" "r@x.com" "s" "b" ["docs/a.txt", "missing.txt"]
        readOne).2 = [Ev.attachErr "missing.txt" "No such file"])
    ∧ (∃ tl, (sendLoop "u@x.com" "s" "b" ["docs/a.txt", "missing.txt"]
          readOne transportOK noStop 1 1 ["r@x.com"]).2
        = Op.send "u@x.com" "r@x.com"
            (buildMessage "u@x.com" "r@x.com" "s" "b"
              ["docs/a.txt", "missing.txt"] readOne).1 :: tl) := by
  obtain ⟨h1, h2, h3⟩ := attachment_failure_isolated "u@x.com" "r@x.com" "s"
    "b" ["docs/a.txt", "missing.txt"] readOne transportOK noStop 1 1
    ["r@x.com"].tail rfl
  refine ⟨?_, ?_, h3⟩
  · rw [h1]
    decide
  · rw [h2]
    decide

/-- C8: the encryption handshake follows the configured mode: with
`use_ssl` the connect is the TLS-wrapping variant and STARTTLS is never
issued; with `use_tls` (and not `use_ssl`) the trace is connect,
greeting, STARTTLS upgrade, second greeting; with neither flag the
upgrade is skipped; and in every mode the login exchange follows, the
username being non-empty. -/
theorem encryption_mode_trace (cfg : SmtpCfg) (recipients : List String)
    (subject body : String) (attachments : List String) (read : ReadFn)
    (t : Transport) (stop : Nat → Bool)
    (hh : ¬cfg.smtp_host = "") (hu : ¬cfg.username = "")
    (hp : ¬cfg.password = "") (hc : t.connect = none) (he1 : t.ehlo1 = none)
    (hst : t.starttls = none) (he2 : t.ehlo2 = none) (hl : t.login = none) :
    (cfg.use_ssl = true →
      (∃ tl, (runWorker cfg recipients subject body attachments read t
          stop).2
        = Op.connectSSL cfg.smtp_host cfg.smtp_port :: Op.ehlo
          :: Op.login cfg.username cfg.password :: tl)
      ∧ Op.starttls ∉ (runWorker cfg recipients subject body attachments read
          t stop).2)
    ∧ (cfg.use_ssl = false → cfg.use_tls = true →
      ∃ tl, (runWorker cfg recipients subject body attachments read t stop).2
        = Op.connectPlain cfg.smtp_host cfg.smtp_port :: Op.ehlo
          :: Op.starttls :: Op.ehlo
          :: Op.login cfg.username cfg.password :: tl)
    ∧ (cfg.use_ssl = false → cfg.use_tls = false →
      (∃ tl, (runWorker cfg recipients subject body attachments read t
          stop).2
        = Op.connectPlain cfg.smtp_host cfg.smtp_port :: Op.ehlo
          :: Op.login cfg.username cfg.password :: tl)
      ∧ Op.starttls ∉ (runWorker cfg recipients subject body attachments read
          t stop).2) := by
  have hops := runWorker_ops_success cfg recipients subject body attachments
    read t stop hh hu hp hc he1 hst he2 hl
  have hloop : Op.starttls ∉ (sendLoop cfg.username subject body attachments
      read t stop recipients.length 1 recipients).2 := by
    intro hmem
    obtain ⟨r, m, hx, _⟩ := sendLoop_ops_mem cfg.username subject body
      attachments read t stop recipients.length recipients 1 Op.starttls hmem
    simp at hx
  refine ⟨fun hssl => ⟨?_, ?_⟩, fun hssl htls => ?_, fun hssl htls => ⟨?_, ?_⟩⟩
  · refine ⟨(sendLoop cfg.username subject body attachments read t stop
      recipients.length 1 recipients).2 ++ [Op.close], ?_⟩
    rw [hops]
    simp [hssl]
  · rw [hops]
    simp [hssl, hloop]
  · refine ⟨(sendLoop cfg.username subject body attachments read t stop
      recipients.length 1 recipients).2 ++ [Op.close], ?_⟩
    rw [hops]
    simp [hssl, htls]
  · refine ⟨(sendLoop cfg.username subject body attachments read t stop
      recipients.length 1 recipients).2 ++ [Op.close], ?_⟩
    rw [hops]
    simp [hssl, htls]
  · rw [hops]
    simp [hssl, htls, hloop]

/-- C8 witness: in STARTTLS mode the trace starts with plain connect,
greeting, upgrade, second greeting, login. -/
theorem encryption_mode_trace_witness :
    ∃ tl, (runWorker cfgSampleTLS ["a@x.com"] "s" "b" [] readNone transportOK
        noStop).2
      = Op.connectPlain "smtp.example.com" 587 :: Op.ehlo :: Op.starttls
        :: Op.ehlo :: Op.login "user@example.com" "pw" :: tl := by
  have h := encryption_mode_trace cfgSampleTLS ["a@x.com"] "s" "b" []
    readNone transportOK noStop (by decide) (by decide) (by decide) rfl rfl
    rfl rfl rfl
  exact h.2.1 rfl rfl

/-- C9: when both `use_ssl` and `use_tls` are set, `use_ssl` wins: the
connection is opened with the implicit-TLS wrapper and the STARTTLS
upgrade command is never issued, on every path of the run. -/
theorem ssl_takes_precedence (cfg : SmtpCfg) (recipients : List String)
    (subject body : String) (attachments : List String) (read : ReadFn)
    (t : Transport) (stop : Nat → Bool)
    (hh : ¬cfg.smtp_host = "") (hu : ¬cfg.username = "")
    (hp : ¬cfg.password = "") (hssl : cfg.use_ssl = true)
    (htls : cfg.use_tls = true) :
    (runWorker cfg recipients subject body attachments read t stop).2.head?
      = some (Op.connectSSL cfg.smtp_host cfg.smtp_port)
    ∧ Op.starttls ∉ (runWorker cfg recipients subject body attachments read t
        stop).2 := by
  have h : ¬(cfg.smtp_host = "" ∨ cfg.username = "" ∨ cfg.password = "") := by
    tauto
  cases hc : t.connect with
  | some e =>
    unfold runWorker
    rw [if_neg h, hc]
    constructor
    · simp [hssl]
    · simp [hssl]
  | none =>
    have hno := sessionBody_no_starttls cfg recipients subject body
      attachments read t stop hssl
    rcases hs : sessionBody cfg recipients subject body attachments read t
        stop with ⟨evs, ops, exc⟩
    rw [hs] at hno
    simp only at hno
    unfold runWorker
    rw [if_neg h, hc, hs]
    cases exc <;> exact ⟨by simp [hssl], by simp [hssl, hno]⟩

/-- C9 witness: with both flags set the run connects via SMTP_SSL and
its trace contains no STARTTLS operation. -/
theorem ssl_takes_precedence_witness :
    (runWorker cfgSampleSSL ["a@x.com"] "s" "b" [] readNone transportOK
        noStop).2.head?
      = some (Op.connectSSL "smtp.example.com" 587)
    ∧ Op.starttls ∉ (runWorker cfgSampleSSL ["a@x.com"] "s" "b" [] readNone
        transportOK noStop).2 :=
  ssl_takes_precedence cfgSampleSSL ["a@x.com"] "s" "b" [] readNone
    transportOK noStop (by decide) (by decide) (by decide) rfl rfl

/-- C10: on every run, every sendmail attempt in the transport trace
uses the configured username both as the envelope sender and as the
built message's From header — sender identity is fully determined by
the username field. -/
theorem sender_is_username (cfg : SmtpCfg) (recipients : List String)
    (subject body : String) (attachments : List String) (read : ReadFn)
    (t : Transport) (stop : Nat → Bool) :
    ((runWorker cfg recipients subject body attachments read t stop).2).all
      (sendByUser cfg.username) = true := by
  rw [List.all_eq_true]
  intro op hop
  by_cases h : cfg.smtp_host = "" ∨ cfg.username = "" ∨ cfg.password = ""
  · unfold runWorker at hop
    rw [if_pos h] at hop
    simp at hop
  · cases hc : t.connect with
    | some e =>
      unfold runWorker at hop
      rw [if_neg h, hc] at hop
      simp only [List.mem_singleton] at hop
      subst hop
      cases hssl : cfg.use_ssl <;> simp [hssl, sendByUser]
    | none =>
      have hmem := sessionBody_ops_mem cfg recipients subject body
        attachments read t stop
      rcases hs : sessionBody cfg recipients subject body attachments read t
          stop with ⟨evs, ops, exc⟩
      rw [hs] at hmem
      simp only at hmem
      unfold runWorker at hop
      rw [if_neg h, hc, hs] at hop
      have hcore : op ∈ ops → sendByUser cfg.username op = true := by
        intro hin
        rcases hmem op hin with rfl | rfl | rfl | ⟨r, m, rfl, hm⟩
        · rfl
        · rfl
        · rfl
        · simp [sendByUser, hm]
      cases exc with
      | none =>
        simp at hop
        rcases hop with rfl | hin | rfl
        · cases cfg.use_ssl <;> simp [sendByUser]
        · exact hcore hin
        · rfl
      | some e =>
        simp at hop
        rcases hop with rfl | hin | rfl
        · cases cfg.use_ssl <;> simp [sendByUser]
        · exact hcore hin
        · rfl

end BulkEmail
